import Mathlib

/-!
Verification of the backend-acme patient-dashboard backend.

This file shallowly embeds the authentication/authorization core and the
resource handlers of the repository and proves properties about them.
Sources embedded (paths are those of the repository):

* `src/middleware/auth.ts` (shipped inside `src/middlewares/README.md`):
  `parseExpiration`, `getTokenExpiration`, `generateAccessToken`,
  `generateRefreshToken`, `verifyRefreshToken`.
* `src/middlewares/auth.middleware.ts`: `authenticateToken`, `handleAuthError`.
* `src/controllers/auth.controller.ts`: `transformUserForAPI`, `register`,
  `login`, `refreshToken`, `getProfile`.
* `src/controllers/weightEntry.controller.ts`: `getWeightEntries`,
  `createWeightEntry`, `getWeightEntry`, `updateWeightEntry`,
  `deleteWeightEntry`.
* `src/controllers/medication.controller.ts`: `createMedication`,
  `getMedications`, `getMedication`, `updateMedication`, `deleteMedication`.
* `src/controllers/shipment.controller.ts`: `getAllShipments`,
  `createShipment`, `updateShipment`, `deleteShipment`.
* `src/config/env.ts`: the zod schema fields for the token durations.

Modelling conventions: times are natural numbers (epoch milliseconds);
MongoDB documents are Lean structures and collections are lists; the
HMAC-SHA256 signature of the `jsonwebtoken` library is modelled as an ideal
MAC (a token verifies under a secret exactly when it was signed with that
secret over the same payload); Mongo ObjectId strings are modelled as plain
strings, with the `Types.ObjectId.isValid` pre-checks elided because every
id in the model is well formed.
-/

namespace Acme

/-- Decidable equality of `Except` results, so that concrete runs of the
fallible operations can be checked by `decide`. -/
instance exceptDecEq {ε α : Type} [DecidableEq ε] [DecidableEq α] :
    DecidableEq (Except ε α) := fun a b =>
  match a, b with
  | .error e₁, .error e₂ =>
      if h : e₁ = e₂ then .isTrue (by simp [h]) else .isFalse (by simp [h])
  | .error _, .ok _ => .isFalse (by simp)
  | .ok _, .error _ => .isFalse (by simp)
  | .ok a₁, .ok a₂ =>
      if h : a₁ = a₂ then .isTrue (by simp [h]) else .isFalse (by simp [h])

/-- A JavaScript number as it occurs in the duration parsing of this code
base: either `NaN` (the result of a failed `parseInt`) or a natural value. -/
inductive JsNum where
  | nan : JsNum
  | num : Nat → JsNum
deriving DecidableEq, Repr

/-- Multiplication of a possibly-NaN value by a constant; NaN propagates,
as it does through `value * 1000` in JavaScript. -/
def JsNum.scale : JsNum → Nat → JsNum
  | .nan, _ => .nan
  | .num n, k => .num (n * k)

/-- The leading decimal-digit characters of a character list. -/
def leadingDigits : List Char → List Char
  | [] => []
  | c :: cs => if c.isDigit then c :: leadingDigits cs else []

/-- Value of a list of decimal digits. -/
def digitsToNat (cs : List Char) : Nat :=
  cs.foldl (fun acc c => acc * 10 + (c.toNat - '0'.toNat)) 0

/-- JavaScript `parseInt` restricted to the strings this program parses
(configuration duration values): the leading digits are parsed and the rest
is ignored; the result is `NaN` when there is no leading digit. -/
def parseIntJs (cs : List Char) : JsNum :=
  match leadingDigits cs with
  | [] => .nan
  | ds => .num (digitsToNat ds)

/-- `parseExpiration` from `src/middleware/auth.ts`: the last character is
the unit (`expiresIn.slice(-1)`), the rest is parsed with `parseInt`
(`expiresIn.slice(0, -1)`), and an unknown unit throws
`Invalid expiration format: ...`. The result is in milliseconds. -/
def parseExpiration (expiresIn : String) : Except String JsNum :=
  let value := parseIntJs expiresIn.data.dropLast
  match expiresIn.data.getLast? with
  | some 's' => .ok (value.scale 1000)
  | some 'm' => .ok (value.scale (60 * 1000))
  | some 'h' => .ok (value.scale (60 * 60 * 1000))
  | some 'd' => .ok (value.scale (24 * 60 * 60 * 1000))
  | _ => .error ("Invalid expiration format: " ++ expiresIn)

/-- `getTokenExpiration` from `src/middleware/auth.ts`: the expiry instant
`now + parseExpiration(expiresIn)`. A `NaN` duration makes
`new Date(NaN).toISOString()` throw `Invalid time value`; the ISO rendering
of the instant is modelled by the instant itself. -/
def getTokenExpiration (expiresIn : String) (now : Nat) : Except String Nat :=
  match parseExpiration expiresIn with
  | .error e => .error e
  | .ok .nan => .error "Invalid time value"
  | .ok (.num n) => .ok (now + n)

/-- The zod field `JWT_EXPIRES_IN: z.string().default('1h')` of
`src/config/env.ts` applied to the (optional) environment variable: any
present string passes validation unchanged, absence yields the default.
`REFRESH_TOKEN_EXPIRES_IN: z.string().default('7d')` behaves the same way
with default `7d`. -/
def envJwtExpiresIn (value : Option String) : Except String String :=
  .ok (value.getD "1h")

/-- User roles (`src/models/user.model.ts`). -/
inductive Role where
  | admin
  | user
  | moderator
deriving DecidableEq, Repr

/-- The `config.jwt` slice of the configuration object. -/
structure JwtConfig where
  secret : String
  expiresIn : String
  refreshExpiresIn : String
deriving DecidableEq, Repr

/-- Decoded token payload, after the `JwtPayload` interface of
`src/middlewares/auth.middleware.ts`: `userId`, `email`, an optional
`role`, and the standard claims `iat`/`exp` plus the `issuer`/`audience`
sign options. The generators never set `role`. -/
structure JwtPayload where
  userId : String
  email : String
  role : Option Role
  iat : Nat
  exp : Nat
  iss : String
  aud : String
deriving DecidableEq, Repr

/-- A signed token. The HMAC signature is modelled as an ideal MAC: the
pair of the signing secret and the signed payload, so that verification
succeeds exactly when the same secret signed the same payload. -/
structure SignedToken where
  payload : JwtPayload
  sig : String × JwtPayload
deriving DecidableEq, Repr

/-- `jwt.sign(payload, secret)`. -/
def jwtSign (payload : JwtPayload) (secret : String) : SignedToken :=
  { payload := payload, sig := (secret, payload) }

/-- The two error classes thrown by `jwt.verify`:
`TokenExpiredError` (valid signature, `exp` in the past) and plain
`JsonWebTokenError` (malformed token or bad signature). -/
inductive JwtVerifyError where
  | tokenExpiredError
  | jsonWebTokenError
deriving DecidableEq, Repr

/-- `jwt.verify(token, secret)` at clock time `now`: a signature mismatch
raises `JsonWebTokenError`; a genuine token whose `exp` has passed raises
`TokenExpiredError`; otherwise the decoded payload is returned. -/
def jwtVerify (token : SignedToken) (secret : String) (now : Nat) :
    Except JwtVerifyError JwtPayload :=
  if token.sig ≠ (secret, token.payload) then .error .jsonWebTokenError
  else if token.payload.exp ≤ now then .error .tokenExpiredError
  else .ok token.payload

/-- The `issuer` sign option used by both token generators. -/
def tokenIssuer : String := "acme-patient-dashboard"

/-- The `audience` sign option used by both token generators. -/
def tokenAudience : String := "acme-patient-dashboard-frontend"

/-- The API-facing user shape produced by `transformUserForAPI`
(`src/controllers/auth.controller.ts`); it has no password-hash field. -/
structure ApiUser where
  id : String
  email : String
  firstName : String
  lastName : String
  dateOfBirth : String
  enrollmentDate : String
  createdAt : String
  updatedAt : String
  role : Role
deriving DecidableEq, Repr

/-- A stored user document (`src/models/user.model.ts`). Dates are
modelled as their ISO strings. -/
structure UserDoc where
  id : String
  email : String
  passwordHash : String
  name : String
  dob : String
  role : Role
  createdAt : String
  updatedAt : String
deriving DecidableEq, Repr

/-- `generateAccessToken` from `src/middleware/auth.ts`: signs
`{userId: user.id, email: user.email}` with `config.jwt.secret` and the
configured `expiresIn`. `jwt.sign` parses the `expiresIn` timespan with
the same seconds/minutes/hours/days grammar as `parseExpiration` and
rejects a string it cannot parse, which is modelled by propagating the
parse failure. No `role` claim is ever included. -/
def generateAccessToken (cfg : JwtConfig) (now : Nat) (user : ApiUser) :
    Except String SignedToken :=
  match parseExpiration cfg.expiresIn with
  | .error e => .error e
  | .ok .nan => .error ("invalid expiresIn option: " ++ cfg.expiresIn)
  | .ok (.num d) =>
      .ok (jwtSign
        { userId := user.id, email := user.email, role := none,
          iat := now, exp := now + d, iss := tokenIssuer, aud := tokenAudience }
        cfg.secret)

/-- `generateRefreshToken` from `src/middleware/auth.ts`: identical to
`generateAccessToken` except that `config.jwt.refreshExpiresIn` is used. -/
def generateRefreshToken (cfg : JwtConfig) (now : Nat) (user : ApiUser) :
    Except String SignedToken :=
  match parseExpiration cfg.refreshExpiresIn with
  | .error e => .error e
  | .ok .nan => .error ("invalid expiresIn option: " ++ cfg.refreshExpiresIn)
  | .ok (.num d) =>
      .ok (jwtSign
        { userId := user.id, email := user.email, role := none,
          iat := now, exp := now + d, iss := tokenIssuer, aud := tokenAudience }
        cfg.secret)

/-- `verifyRefreshToken` from `src/middleware/auth.ts`: plain
`jwt.verify(token, config.jwt.secret)` — no check distinguishes refresh
tokens from access tokens. -/
def verifyRefreshToken (cfg : JwtConfig) (now : Nat) (token : SignedToken) :
    Except JwtVerifyError JwtPayload :=
  jwtVerify token cfg.secret now

/-- The `ApiError` class of `src/utils/ApiError.ts` (status code and
message). -/
structure ApiError where
  statusCode : Nat
  message : String
deriving DecidableEq, Repr

/-- Modelled bcrypt hash (`src/utils/password.ts`, `hashPassword`): an
ideal one-way function represented injectively by tagging the plaintext. -/
def hashPassword (password : String) : String :=
  "bcrypt-hash:" ++ password

/-- Modelled bcrypt compare (`src/utils/password.ts`, `comparePassword`):
succeeds exactly on the hash of the same plaintext. -/
def comparePassword (password hashed : String) : Bool :=
  hashed == hashPassword password

/-- Piecewise split of a character list at spaces, after JavaScript
`name.split(' ')` (empty pieces are kept). -/
def splitOnSpace : List Char → List (List Char)
  | [] => [[]]
  | c :: cs =>
      if c = ' ' then [] :: splitOnSpace cs
      else
        match splitOnSpace cs with
        | [] => [[c]]
        | p :: ps => (c :: p) :: ps

/-- JavaScript `parts.join(' ')`. -/
def joinWithSpace : List (List Char) → List Char
  | [] => []
  | [p] => p
  | p :: ps => p ++ ' ' :: joinWithSpace ps

/-- `transformUserForAPI` from `src/controllers/auth.controller.ts`:
`firstName = name.split(' ')[0] || name`,
`lastName = name.split(' ').slice(1).join(' ') || ''`,
`dateOfBirth = dob` (date part), `enrollmentDate = createdAt` (date part);
the ISO date renderings are the identity on the model's string dates.
The password hash is not read. -/
def transformUserForAPI (u : UserDoc) : ApiUser :=
  let parts := splitOnSpace u.name.data
  let first := String.mk (parts.headD [])
  { id := u.id
    email := u.email
    firstName := if first = "" then u.name else first
    lastName := String.mk (joinWithSpace (parts.drop 1))
    dateOfBirth := u.dob
    enrollmentDate := u.createdAt
    createdAt := u.createdAt
    updatedAt := u.updatedAt
    role := u.role }

/-- The `AuthResponse` payload returned by register/login/refresh
(`src/types`): the API user, the access token (`token`), the refresh
token, and the `expiresIn` instant from `getTokenExpiration`. -/
structure AuthResponse where
  user : ApiUser
  token : SignedToken
  refreshToken : SignedToken
  expiresIn : Nat
deriving DecidableEq, Repr

/-- The shared tail of register/login/refresh
(`src/controllers/auth.controller.ts`): generate an access token, a
refresh token and the expiry instant for the given API user; any failure
of the generators surfaces as an internal error (a thrown non-ApiError
reaches the 500 handler). -/
def issueAuthResponse (cfg : JwtConfig) (now : Nat) (apiUser : ApiUser) :
    Except ApiError AuthResponse :=
  match generateAccessToken cfg now apiUser,
        generateRefreshToken cfg now apiUser,
        getTokenExpiration cfg.expiresIn now with
  | .ok t, .ok rt, .ok e =>
      .ok { user := apiUser, token := t, refreshToken := rt, expiresIn := e }
  | _, _, _ => .error { statusCode := 500, message := "Internal Server Error" }

/-- `register` from `src/controllers/auth.controller.ts`. `hashFn` is the
injected password hasher (`hashPassword`); `newId` the store-generated id;
`now` the clock (used for the document timestamps and the token clocks).
Returns the response payload and the updated user collection. -/
def register (users : List UserDoc) (cfg : JwtConfig) (now : Nat)
    (newId : String) (hashFn : String → String)
    (email password name dob : String) (role : Option Role) :
    Except ApiError (AuthResponse × List UserDoc) :=
  if users.any (fun u => u.email == email) then
    .error { statusCode := 409, message := "User already exists with this email" }
  else
    let savedUser : UserDoc :=
      { id := newId, email := email, passwordHash := hashFn password,
        name := name, dob := dob, role := role.getD .user,
        createdAt := toString now, updatedAt := toString now }
    (issueAuthResponse cfg now (transformUserForAPI savedUser)).map
      (fun r => (r, users ++ [savedUser]))

/-- `login` from `src/controllers/auth.controller.ts`. -/
def login (users : List UserDoc) (cfg : JwtConfig) (now : Nat)
    (email password : String) : Except ApiError AuthResponse :=
  match users.find? (fun u => u.email == email) with
  | none => .error { statusCode := 401, message := "Invalid credentials" }
  | some user =>
      if !comparePassword password user.passwordHash then
        .error { statusCode := 401, message := "Invalid credentials" }
      else
        issueAuthResponse cfg now (transformUserForAPI user)

/-- `refreshToken` from `src/controllers/auth.controller.ts`. The whole
verify/lookup/reissue sequence runs inside one `try`; its `catch` replaces
every failure (bad token, vanished user, generation error) with the same
401 `Invalid or expired refresh token`. -/
def refreshToken (users : List UserDoc) (cfg : JwtConfig) (now : Nat)
    (reqRefreshToken : Option SignedToken) : Except ApiError AuthResponse :=
  match reqRefreshToken with
  | none => .error { statusCode := 400, message := "Refresh token is required" }
  | some tok =>
      match verifyRefreshToken cfg now tok with
      | .error _ =>
          .error { statusCode := 401, message := "Invalid or expired refresh token" }
      | .ok decoded =>
          match users.find? (fun u => u.id == decoded.userId) with
          | none =>
              .error { statusCode := 401, message := "Invalid or expired refresh token" }
          | some user =>
              match issueAuthResponse cfg now (transformUserForAPI user) with
              | .error _ =>
                  .error { statusCode := 401, message := "Invalid or expired refresh token" }
              | .ok r => .ok r

/-- `getProfile` from `src/controllers/auth.controller.ts`: look the caller
up by id with the password hash deselected and return the API view. -/
def getProfile (users : List UserDoc) (userId : Option String) :
    Except ApiError ApiUser :=
  match userId with
  | none => .error { statusCode := 401, message := "User not authenticated" }
  | some uid =>
      match users.find? (fun u => u.id == uid) with
      | none => .error { statusCode := 404, message := "User not found" }
      | some user => .ok (transformUserForAPI user)

/-- The minimal identity view attached to `req.user` by the
authentication middleware (`src/middlewares/auth.middleware.ts`). -/
structure AuthUser where
  id : String
  email : String
  role : Role
  createdAt : String
  updatedAt : String
deriving DecidableEq, Repr

/-- The error body sent by the middleware (status plus the `error` and
`message` fields of the JSON envelope). -/
structure ErrorBody where
  status : Nat
  error : String
  message : String
deriving DecidableEq, Repr

/-- The classes of values that can reach the middleware's `catch`:
`TokenExpiredError`, a plain `JsonWebTokenError`, or anything else. -/
inductive CaughtError where
  | tokenExpiredError
  | jsonWebTokenError
  | otherError
deriving DecidableEq, Repr

/-- `error instanceof jwt.JsonWebTokenError`. In the `jsonwebtoken`
library `TokenExpiredError` extends `JsonWebTokenError`, so it also
satisfies this test. -/
def CaughtError.isJsonWebTokenError : CaughtError → Bool
  | .tokenExpiredError => true
  | .jsonWebTokenError => true
  | .otherError => false

/-- `error instanceof jwt.TokenExpiredError`. -/
def CaughtError.isTokenExpiredError : CaughtError → Bool
  | .tokenExpiredError => true
  | _ => false

/-- `handleAuthError` from `src/middlewares/auth.middleware.ts`, with its
branch order as written in the source: the `JsonWebTokenError` test comes
first, the `TokenExpiredError` test second. -/
def handleAuthError (e : CaughtError) : ErrorBody :=
  if e.isJsonWebTokenError then
    { status := 401, error := "Invalid token",
      message := "The provided token is invalid or malformed" }
  else if e.isTokenExpiredError then
    { status := 401, error := "Token expired",
      message := "The provided token has expired" }
  else
    { status := 500, error := "Authentication error",
      message := "An error occurred during authentication" }

/-- The error class of a `jwt.verify` failure as seen by `catch`. -/
def caughtOfVerifyError : JwtVerifyError → CaughtError
  | .tokenExpiredError => .tokenExpiredError
  | .jsonWebTokenError => .jsonWebTokenError

/-- Outcome of the authentication middleware: either control proceeds with
an attached identity or the request is rejected with an error body. -/
inductive AuthOutcome where
  | proceed (user : AuthUser)
  | reject (response : ErrorBody)
deriving DecidableEq, Repr

/-- `authenticateToken` from `src/middlewares/auth.middleware.ts`.
`bearerToken` is the token extracted from the `Authorization: Bearer ...`
header (`none` when the header is missing or not of bearer form). On
successful verification the user is re-resolved from the store by id and a
minimal view is attached; `jwt.verify` failures go through
`handleAuthError`. -/
def authenticateToken (users : List UserDoc) (secret : String) (now : Nat)
    (bearerToken : Option SignedToken) : AuthOutcome :=
  match bearerToken with
  | none =>
      .reject { status := 401, error := "Access token required",
                message := "Please provide a valid access token in the Authorization header" }
  | some token =>
      match jwtVerify token secret now with
      | .error e => .reject (handleAuthError (caughtOfVerifyError e))
      | .ok decoded =>
          match users.find? (fun u => u.id == decoded.userId) with
          | none =>
              .reject { status := 401, error := "User not found",
                        message := "The user associated with this token no longer exists" }
          | some user =>
              .proceed { id := user.id, email := user.email, role := user.role,
                         createdAt := user.createdAt, updatedAt := user.updatedAt }

/-- A stored weight-entry document (`src/models/weightEntry.model.ts`). -/
structure WeightEntryDoc where
  id : String
  userId : String
  weight : Nat
  recordedAt : Nat
  notes : Option String
deriving DecidableEq, Repr

/-- Replace the first element satisfying `p` (the document matched by a
Mongo `findOne`/`save` or `findOneAndUpdate`). -/
def updateFirst {α : Type} (p : α → Bool) (f : α → α) : List α → List α
  | [] => []
  | x :: xs => if p x then f x :: xs else x :: updateFirst p f xs

/-- Remove the first element satisfying `p` (`findOneAndDelete`). -/
def removeFirst {α : Type} (p : α → Bool) : List α → List α
  | [] => []
  | x :: xs => if p x then xs else x :: removeFirst p xs

/-- Insertion of `x` into `l` keeping `le`-sortedness. -/
def insertLe {α : Type} (le : α → α → Bool) (x : α) : List α → List α
  | [] => [x]
  | y :: ys => if le x y then x :: y :: ys else y :: insertLe le x ys

/-- Insertion sort by the boolean relation `le` (models the Mongo `sort`
stage of the list queries). -/
def sortLe {α : Type} (le : α → α → Bool) : List α → List α
  | [] => []
  | x :: xs => insertLe le x (sortLe le xs)

/-- Sort direction of a list query (`sortOrder`, default `desc`). -/
inductive SortOrder where
  | asc
  | desc
deriving DecidableEq, Repr

/-- The Mongo filter built by `getWeightEntries`
(`src/controllers/weightEntry.controller.ts`): owner scoping plus the
optional inclusive `recordedAt` range. -/
def weightQuery (store : List WeightEntryDoc) (uid : String)
    (startDate endDate : Option Nat) : List WeightEntryDoc :=
  store.filter (fun e =>
    e.userId == uid
    && (match startDate with | some s => decide (s ≤ e.recordedAt) | none => true)
    && (match endDate with | some t => decide (e.recordedAt ≤ t) | none => true))

/-- The comparison used by the weight-entry list sort on the default
`recordedAt` sort key. -/
def recordedAtLe (ord : SortOrder) (a b : WeightEntryDoc) : Bool :=
  match ord with
  | .desc => decide (b.recordedAt ≤ a.recordedAt)
  | .asc => decide (a.recordedAt ≤ b.recordedAt)

/-- `getWeightEntries` from `src/controllers/weightEntry.controller.ts`:
401 without an identity; otherwise filter to the caller, sort by the
default `recordedAt` key in the requested direction, and apply
`skip((page-1)*limit).limit(limit)`. The handler also computes a total
count (`weightEntriesTotal`) but its response body carries only the data
list. -/
def getWeightEntries (store : List WeightEntryDoc) (user : Option AuthUser)
    (page limit : Nat) (startDate endDate : Option Nat) (ord : SortOrder) :
    Nat × List WeightEntryDoc :=
  match user with
  | none => (401, [])
  | some u =>
      let sorted := sortLe (recordedAtLe ord) (weightQuery store u.id startDate endDate)
      (200, (sorted.drop ((page - 1) * limit)).take limit)

/-- The `countDocuments(query)` total computed by `getWeightEntries`; it
is not included in the handler's response body. -/
def weightEntriesTotal (store : List WeightEntryDoc) (uid : String)
    (startDate endDate : Option Nat) : Nat :=
  (weightQuery store uid startDate endDate).length

/-- `createWeightEntry` from `src/controllers/weightEntry.controller.ts`:
401 without an identity; 409 when an entry of the caller with the exact
`recordedAt` instant already exists; otherwise the entry is appended with
the caller's id (the missing `recordedAt` defaults to the clock). Returns
the status code and the resulting store. -/
def createWeightEntry (store : List WeightEntryDoc) (user : Option AuthUser)
    (newId : String) (weight : Nat) (recordedAt : Option Nat)
    (notes : Option String) (now : Nat) : Nat × List WeightEntryDoc :=
  match user with
  | none => (401, store)
  | some u =>
      let t := recordedAt.getD now
      if store.any (fun e => e.userId == u.id && e.recordedAt == t) then
        (409, store)
      else
        (201, store ++ [{ id := newId, userId := u.id, weight := weight,
                          recordedAt := t, notes := notes }])

/-- `getWeightEntry` from `src/controllers/weightEntry.controller.ts`:
`findOne({_id: id, userId: caller})`, so a record of another owner is
indistinguishable from a missing one (404). -/
def getWeightEntry (store : List WeightEntryDoc) (user : Option AuthUser)
    (id : String) : Nat × Option WeightEntryDoc :=
  match user with
  | none => (401, none)
  | some u =>
      match store.find? (fun e => e.id == id && e.userId == u.id) with
      | none => (404, none)
      | some e => (200, some e)

/-- `updateWeightEntry` from `src/controllers/weightEntry.controller.ts`:
look up by id and caller together; apply only the supplied fields to the
found document and save it. No duplicate-`recordedAt` check is made. -/
def updateWeightEntry (store : List WeightEntryDoc) (user : Option AuthUser)
    (id : String) (weight : Option Nat) (recordedAt : Option Nat)
    (notes : Option String) : Nat × List WeightEntryDoc :=
  match user with
  | none => (401, store)
  | some u =>
      if store.any (fun e => e.id == id && e.userId == u.id) then
        (200, updateFirst (fun e => e.id == id && e.userId == u.id)
          (fun e =>
            { e with weight := weight.getD e.weight,
                     recordedAt := recordedAt.getD e.recordedAt,
                     notes := notes.or e.notes })
          store)
      else (404, store)

/-- `deleteWeightEntry` from `src/controllers/weightEntry.controller.ts`:
`findOneAndDelete({_id: id, userId: caller})`. -/
def deleteWeightEntry (store : List WeightEntryDoc) (user : Option AuthUser)
    (id : String) : Nat × List WeightEntryDoc :=
  match user with
  | none => (401, store)
  | some u =>
      if store.any (fun e => e.id == id && e.userId == u.id) then
        (200, removeFirst (fun e => e.id == id && e.userId == u.id) store)
      else (404, store)

/-- A stored medication document (`src/models/medication.model.ts`). -/
structure MedicationDoc where
  id : String
  userId : String
  name : String
  dosage : String
  frequency : String
  startDate : Nat
  endDate : Option Nat
deriving DecidableEq, Repr

/-- The request body of a medication create, including the client-supplied
`userId` field a client may send. -/
structure MedicationBody where
  userId : Option String
  name : String
  dosage : String
  frequency : String
  startDate : Nat
  endDate : Option Nat
deriving DecidableEq, Repr

/-- `createMedication` from `src/controllers/medication.controller.ts`:
`Medication.create({...req.body, userId: req.user?.id})` — the spread is
followed by the `userId` override, so the caller's id always wins over any
client-supplied value. -/
def createMedication (store : List MedicationDoc) (user : AuthUser)
    (newId : String) (body : MedicationBody) : Nat × List MedicationDoc :=
  (201, store ++ [{ id := newId, userId := user.id, name := body.name,
                    dosage := body.dosage, frequency := body.frequency,
                    startDate := body.startDate, endDate := body.endDate }])

/-- `getMedications` from `src/controllers/medication.controller.ts`:
`Medication.find({userId: req.user?.id})`. -/
def getMedications (store : List MedicationDoc) (user : AuthUser) :
    Nat × List MedicationDoc :=
  (200, store.filter (fun m => m.userId == user.id))

/-- `getMedication` from `src/controllers/medication.controller.ts`:
`findOne({_id: id, userId: req.user?.id})`; no role is consulted. -/
def getMedication (store : List MedicationDoc) (user : AuthUser)
    (id : String) : Nat × Option MedicationDoc :=
  match store.find? (fun m => m.id == id && m.userId == user.id) with
  | none => (404, none)
  | some m => (200, some m)

/-- A partial medication update (`req.body` of a PUT); absent fields are
left unchanged by `findOneAndUpdate`. -/
structure MedicationPatch where
  userId : Option String
  name : Option String
  dosage : Option String
  frequency : Option String
  startDate : Option Nat
  endDate : Option Nat
deriving DecidableEq, Repr

/-- Application of a medication patch to a document (the `$set` semantics
of `findOneAndUpdate` with a plain body). -/
def applyMedicationPatch (p : MedicationPatch) (m : MedicationDoc) :
    MedicationDoc :=
  { m with userId := p.userId.getD m.userId, name := p.name.getD m.name,
           dosage := p.dosage.getD m.dosage,
           frequency := p.frequency.getD m.frequency,
           startDate := p.startDate.getD m.startDate,
           endDate := p.endDate.or m.endDate }

/-- `updateMedication` from `src/controllers/medication.controller.ts`:
`findOneAndUpdate({_id: id, userId: req.user?.id}, req.body)`. -/
def updateMedication (store : List MedicationDoc) (user : AuthUser)
    (id : String) (patch : MedicationPatch) : Nat × List MedicationDoc :=
  if store.any (fun m => m.id == id && m.userId == user.id) then
    (200, updateFirst (fun m => m.id == id && m.userId == user.id)
      (applyMedicationPatch patch) store)
  else (404, store)

/-- `deleteMedication` from `src/controllers/medication.controller.ts`:
`findOneAndDelete({_id: id, userId: req.user?.id})`. -/
def deleteMedication (store : List MedicationDoc) (user : AuthUser)
    (id : String) : Nat × List MedicationDoc :=
  if store.any (fun m => m.id == id && m.userId == user.id) then
    (200, removeFirst (fun m => m.id == id && m.userId == user.id) store)
  else (404, store)

/-- Status of a shipment (`src/models/shipment.model.ts`). -/
inductive ShipmentStatus where
  | pending
  | shipped
  | delivered
  | cancelled
deriving DecidableEq, Repr

/-- A line item of a shipment (`src/models/shipment.model.ts`). -/
structure ShipmentItem where
  name : String
  quantity : Nat
  price : Option Nat
deriving DecidableEq, Repr

/-- A stored shipment document (`src/models/shipment.model.ts`). -/
structure ShipmentDoc where
  id : String
  userId : String
  items : List ShipmentItem
  status : ShipmentStatus
  trackingNumber : Option String
  shippedAt : Option Nat
  deliveredAt : Option Nat
deriving DecidableEq, Repr

/-- The request body of a shipment create; `createShipment` persists it
verbatim, so the client-supplied `userId` is part of it. -/
structure ShipmentBody where
  userId : Option String
  items : List ShipmentItem
  status : Option ShipmentStatus
  trackingNumber : Option String
  shippedAt : Option Nat
  deliveredAt : Option Nat
deriving DecidableEq, Repr

/-- `getAllShipments` from `src/controllers/shipment.controller.ts`:
`Shipment.find()` with no filter at all — the whole collection is
returned and `req.user` is never read. -/
def getAllShipments (store : List ShipmentDoc) : Nat × List ShipmentDoc :=
  (200, store)

/-- `createShipment` from `src/controllers/shipment.controller.ts`:
`new Shipment(req.body).save()` — the document is persisted exactly as
sent (the caller's identity is never consulted); schema validation rejects
a missing `userId` or an empty `items` list with a 400. -/
def createShipment (store : List ShipmentDoc) (newId : String)
    (body : ShipmentBody) : Nat × List ShipmentDoc :=
  match body.userId with
  | none => (400, store)
  | some uid =>
      if body.items.isEmpty then (400, store)
      else
        (201, store ++ [{ id := newId, userId := uid, items := body.items,
                          status := body.status.getD .pending,
                          trackingNumber := body.trackingNumber,
                          shippedAt := body.shippedAt,
                          deliveredAt := body.deliveredAt }])

/-- A partial shipment update (`req.body` of a PUT). -/
structure ShipmentPatch where
  userId : Option String
  items : Option (List ShipmentItem)
  status : Option ShipmentStatus
  trackingNumber : Option String
  shippedAt : Option Nat
  deliveredAt : Option Nat
deriving DecidableEq, Repr

/-- Application of a shipment patch to a document. -/
def applyShipmentPatch (p : ShipmentPatch) (s : ShipmentDoc) : ShipmentDoc :=
  { s with userId := p.userId.getD s.userId, items := p.items.getD s.items,
           status := p.status.getD s.status,
           trackingNumber := p.trackingNumber.or s.trackingNumber,
           shippedAt := p.shippedAt.or s.shippedAt,
           deliveredAt := p.deliveredAt.or s.deliveredAt }

/-- `updateShipment` from `src/controllers/shipment.controller.ts`:
`findByIdAndUpdate(req.params.id, req.body)` — the lookup is by id only;
no owner and no caller appears in the filter. -/
def updateShipment (store : List ShipmentDoc) (id : String)
    (patch : ShipmentPatch) : Nat × List ShipmentDoc :=
  if store.any (fun s => s.id == id) then
    (200, updateFirst (fun s => s.id == id) (applyShipmentPatch patch) store)
  else (404, store)

/-- `deleteShipment` from `src/controllers/shipment.controller.ts`:
`findByIdAndDelete(req.params.id)` — again by id only. -/
def deleteShipment (store : List ShipmentDoc) (id : String) :
    Nat × List ShipmentDoc :=
  if store.any (fun s => s.id == id) then
    (200, removeFirst (fun s => s.id == id) store)
  else (404, store)

/-- The slice of a list served as page `p` (1-based) at page size `limit`:
`skip((p-1)*limit).limit(limit)`. -/
def pageSlice {α : Type} (l : List α) (limit p : Nat) : List α :=
  (l.drop ((p - 1) * limit)).take limit

/-- Concatenation of the first `pages` page slices of `l`. -/
def pagesConcat {α : Type} (l : List α) (limit pages : Nat) : List α :=
  (List.range pages).flatMap (fun i => pageSlice l limit (i + 1))

/-- Number of pages needed to list `n` records at page size `limit`
(`ceil(n / limit)`). -/
def pagesNeeded (n limit : Nat) : Nat := (n + limit - 1) / limit

/-- The claim set both generators sign for a user: `userId` and `email`
from the identity, no role, and the standard timing/issuer claims. -/
def tokenClaims (user : ApiUser) (now expiry : Nat) : JwtPayload :=
  { userId := user.id, email := user.email, role := none,
    iat := now, exp := expiry, iss := tokenIssuer, aud := tokenAudience }

/-! Concrete fixtures used by the closed checks. -/

/-- A demo configuration. -/
def demoCfg : JwtConfig :=
  { secret := "demo-secret", expiresIn := "1h", refreshExpiresIn := "7d" }

/-- A demo stored user. -/
def demoUserDoc : UserDoc :=
  { id := "demo-user-1", email := "patient@example.com",
    passwordHash := hashPassword "demo123", name := "Sarah Johnson",
    dob := "1985-03-15", role := .user,
    createdAt := "2024-01-15", updatedAt := "2024-01-15" }

/-- The API view of the demo user. -/
def demoApiUser : ApiUser := transformUserForAPI demoUserDoc

/-- An access token issued for the demo user at time 0 (so it expires at
3600000, one hour later). -/
def demoAccessToken : SignedToken :=
  jwtSign (tokenClaims demoApiUser 0 3600000) demoCfg.secret

/-- A configuration whose access-token duration has an unknown unit. -/
def badDurationCfg : JwtConfig :=
  { secret := "demo-secret", expiresIn := "5x", refreshExpiresIn := "7d" }

/-- The caller of the C10 scenario. -/
def c10User : AuthUser :=
  { id := "user-a", email := "a@x.com", role := .user,
    createdAt := "", updatedAt := "" }

/-- First create: an entry of `user-a` recorded at instant 1000. -/
def c10Step1 : Nat × List WeightEntryDoc :=
  createWeightEntry [] (some c10User) "w1" 180 (some 1000) none 0

/-- Second create: an entry of `user-a` recorded at instant 2000. -/
def c10Step2 : Nat × List WeightEntryDoc :=
  createWeightEntry c10Step1.2 (some c10User) "w2" 181 (some 2000) none 0

/-- The update that moves the second entry onto the first one's instant. -/
def c10Step3 : Nat × List WeightEntryDoc :=
  updateWeightEntry c10Step2.2 (some c10User) "w2" none (some 1000) none

/-- The admin caller of the C3 checks. -/
def c3Admin : AuthUser :=
  { id := "admin-1", email := "admin@example.com", role := .admin,
    createdAt := "", updatedAt := "" }

/-- A medication owned by the demo patient, not by the admin. -/
def c3Med : MedicationDoc :=
  { id := "med-1", userId := "demo-user-1", name := "Semaglutide",
    dosage := "1.0 mg", frequency := "Weekly", startDate := 0, endDate := none }

/-- A weight entry owned by the demo patient. -/
def c3Entry : WeightEntryDoc :=
  { id := "w-1", userId := "demo-user-1", weight := 185,
    recordedAt := 1000, notes := none }

/-- A shipment owned by the demo patient. -/
def c3Ship : ShipmentDoc :=
  { id := "ship-1", userId := "demo-user-1",
    items := [{ name := "Semaglutide", quantity := 4, price := none }],
    status := .pending, trackingNumber := none,
    shippedAt := none, deliveredAt := none }

/-- An empty medication patch. -/
def emptyMedicationPatch : MedicationPatch :=
  { userId := none, name := none, dosage := none, frequency := none,
    startDate := none, endDate := none }

/-- An empty shipment patch. -/
def emptyShipmentPatch : ShipmentPatch :=
  { userId := none, items := none, status := none, trackingNumber := none,
    shippedAt := none, deliveredAt := none }

/-- The base shipment body of the C4 checks, carrying owner `user-a`. -/
def c4Body1 : ShipmentBody :=
  { userId := some "user-a",
    items := [{ name := "Semaglutide", quantity := 4, price := none }],
    status := none, trackingNumber := none,
    shippedAt := none, deliveredAt := none }

/-- The same body with the client-supplied owner changed to `user-b`. -/
def c4Body2 : ShipmentBody := { c4Body1 with userId := some "user-b" }

/-- A shipment of `user-b`, used to exhibit the unscoped shipment list. -/
def c5Ship : ShipmentDoc :=
  { id := "ship-2", userId := "user-b",
    items := [{ name := "Semaglutide", quantity := 4, price := none }],
    status := .pending, trackingNumber := none,
    shippedAt := none, deliveredAt := none }

/-- A user document with its stored password hash blanked. -/
def eraseHash (u : UserDoc) : UserDoc := { u with passwordHash := "" }

/-- The auth payload of a demo login at time 0 under the demo
configuration (1-hour access expiry, 7-day refresh expiry). -/
def demoLoginResponse : AuthResponse :=
  { user := demoApiUser,
    token := jwtSign (tokenClaims demoApiUser 0 3600000) demoCfg.secret,
    refreshToken := jwtSign (tokenClaims demoApiUser 0 604800000) demoCfg.secret,
    expiresIn := 3600000 }

/-! Supporting lemmas. -/

theorem insertLe_perm {α : Type} (le : α → α → Bool) (x : α) (l : List α) :
    List.Perm (insertLe le x l) (x :: l) := by
  induction l with
  | nil => simp [insertLe]
  | cons y ys ih =>
      simp only [insertLe]
      split
      · exact List.Perm.refl _
      · exact List.Perm.trans (List.Perm.cons y ih) (List.Perm.swap x y ys)

theorem sortLe_perm {α : Type} (le : α → α → Bool) (l : List α) :
    List.Perm (sortLe le l) l := by
  induction l with
  | nil => exact List.Perm.refl _
  | cons x xs ih =>
      exact List.Perm.trans (insertLe_perm le x (sortLe le xs)) (List.Perm.cons x ih)

theorem pageSlice_one {α : Type} (l : List α) (limit : Nat) :
    pageSlice l limit 1 = l.take limit := by
  simp [pageSlice]

theorem pageSlice_succ {α : Type} (l : List α) (limit p : Nat) (hp : 1 ≤ p) :
    pageSlice l limit (p + 1) = pageSlice (l.drop limit) limit p := by
  unfold pageSlice
  rw [List.drop_drop]
  have h : limit + (p - 1) * limit = (p + 1 - 1) * limit := by
    have hps : p - 1 + 1 = p := Nat.succ_pred_eq_of_pos hp
    calc limit + (p - 1) * limit = (p - 1) * limit + limit := Nat.add_comm _ _
      _ = (p - 1 + 1) * limit := (Nat.succ_mul _ _).symm
      _ = p * limit := by rw [hps]
      _ = (p + 1 - 1) * limit := by simp
  rw [h]

theorem pagesConcat_succ {α : Type} (l : List α) (limit k : Nat) :
    pagesConcat l limit (k + 1) = l.take limit ++ pagesConcat (l.drop limit) limit k := by
  unfold pagesConcat
  rw [List.range_succ_eq_map, List.flatMap_cons, List.flatMap_map, pageSlice_one]
  congr 1
  apply List.flatMap_congr
  intro i _
  exact pageSlice_succ l limit (i + 1) (Nat.succ_le_succ (Nat.zero_le i))

theorem pagesNeeded_drop {α : Type} (l : List α) (limit k : Nat)
    (hL : 0 < limit) (h : pagesNeeded l.length limit = k + 1) :
    pagesNeeded (l.drop limit).length limit = k := by
  unfold pagesNeeded at *
  rw [List.length_drop]
  by_cases hle : l.length ≤ limit
  · have hz : l.length - limit = 0 := Nat.sub_eq_zero_of_le hle
    rw [hz]
    have hlt : (0 : Nat) + limit - 1 < limit := by omega
    have h0 : (0 + limit - 1) / limit = 0 := Nat.div_eq_of_lt hlt
    rw [h0]
    -- from h, the quotient is at most one, so k = 0
    have hbound : l.length + limit - 1 < 2 * limit := by omega
    have : (l.length + limit - 1) / limit < 2 := by
      exact Nat.div_lt_of_lt_mul (by omega)
    omega
  · have h1 : l.length - limit + limit - 1 = l.length - 1 := by omega
    have h2 : l.length + limit - 1 = (l.length - 1) + limit := by omega
    rw [h1]
    rw [h2] at h
    rw [Nat.add_div_right _ hL] at h
    omega

/-- Listing across `ceil(length/limit)` pages reproduces the full list:
the page slices concatenate, in order, to the list itself. -/
theorem pagesConcat_covers {α : Type} (limit : Nat) (hL : 0 < limit) :
    ∀ (k : Nat) (l : List α), pagesNeeded l.length limit = k →
      pagesConcat l limit k = l := by
  intro k
  induction k with
  | zero =>
      intro l h
      unfold pagesNeeded at h
      have hlen : l.length = 0 := by
        by_contra hne
        have hpos : 0 < l.length := Nat.pos_of_ne_zero hne
        have hge : limit ≤ l.length + limit - 1 := by omega
        have hone : 1 ≤ (l.length + limit - 1) / limit :=
          (Nat.one_le_div_iff hL).mpr hge
        omega
      have : l = [] := List.eq_nil_of_length_eq_zero hlen
      simp [this, pagesConcat]
  | succ k ih =>
      intro l h
      rw [pagesConcat_succ, ih (l.drop limit) (pagesNeeded_drop l limit k hL h)]
      exact List.take_append_drop limit l

theorem jwtVerify_sign (p : JwtPayload) (secret : String) (now : Nat) :
    jwtVerify (jwtSign p secret) secret now
      = if p.exp ≤ now then .error .tokenExpiredError else .ok p := by
  unfold jwtVerify jwtSign
  simp

/-! Claim theorems. -/

/--
C1 (amended). `generateAccessToken` and `generateRefreshToken` both
produce a token signed with the shared secret whose claim set is
`{userId, email, iat, exp}` (plus the constant issuer/audience) — there is
no `role` claim and the identity field is named `userId`, not `id`.
Verifying an access token before its expiry yields a claim whose `userId`
and `email` match the identity it was issued for, and verification fails
with `TokenExpiredError` once the configured duration has elapsed.
-/
theorem c1_token_issue_verify (cfg : JwtConfig) (now now2 : Nat)
    (user : ApiUser) (d rd : Nat)
    (hd : parseExpiration cfg.expiresIn = .ok (.num d))
    (hrd : parseExpiration cfg.refreshExpiresIn = .ok (.num rd)) :
    generateAccessToken cfg now user
      = .ok (jwtSign (tokenClaims user now (now + d)) cfg.secret)
    ∧ generateRefreshToken cfg now user
      = .ok (jwtSign (tokenClaims user now (now + rd)) cfg.secret)
    ∧ (tokenClaims user now (now + d)).userId = user.id
    ∧ (tokenClaims user now (now + d)).email = user.email
    ∧ (tokenClaims user now (now + d)).role = none
    ∧ (now2 < now + d →
        jwtVerify (jwtSign (tokenClaims user now (now + d)) cfg.secret)
            cfg.secret now2
          = .ok (tokenClaims user now (now + d)))
    ∧ (now + d ≤ now2 →
        jwtVerify (jwtSign (tokenClaims user now (now + d)) cfg.secret)
            cfg.secret now2
          = .error .tokenExpiredError) := by
  refine ⟨?_, ?_, rfl, rfl, rfl, ?_, ?_⟩
  · unfold generateAccessToken
    rw [hd]
    rfl
  · unfold generateRefreshToken
    rw [hrd]
    rfl
  · intro hlt
    rw [jwtVerify_sign]
    exact if_neg (by simp [tokenClaims]; omega)
  · intro hge
    rw [jwtVerify_sign]
    exact if_pos (by simp [tokenClaims]; omega)

/-- C1 witness: the amended statement instantiated for the demo user under
the demo configuration (1-hour access expiry, 7-day refresh expiry). -/
theorem c1_token_issue_verify_witness :
    jwtVerify (jwtSign (tokenClaims demoApiUser 0 (0 + 3600000)) demoCfg.secret)
        demoCfg.secret 1000
      = .ok (tokenClaims demoApiUser 0 (0 + 3600000)) :=
  (c1_token_issue_verify demoCfg 0 1000 demoApiUser 3600000 604800000
    (by decide) (by decide)).2.2.2.2.2.1 (by decide)

/-- C1 counterexample: the claim as frozen is false — the verified claim
of a fresh, unexpired access token carries no `role` claim (`role = none`)
although the identity's role is `user`, so the claim set is not
`{id, email, role, iat, exp}` and the role cannot match the identity. -/
theorem c1_counterexample :
    (generateAccessToken demoCfg 0 demoApiUser).map
        (fun t => (jwtVerify t demoCfg.secret 1000).map (fun p => p.role))
      = .ok (.ok none)
    ∧ demoApiUser.role = .user := by
  exact ⟨rfl, rfl⟩

/--
C2 (code bug). In the `jsonwebtoken` library `TokenExpiredError` is a
subclass of `JsonWebTokenError`, and `handleAuthError` in
`src/middlewares/auth.middleware.ts` tests `instanceof JsonWebTokenError`
first, so a structurally valid but expired token is answered with the
`Invalid token` body; the dedicated `Token expired` branch is unreachable.
The check below runs an expired, correctly signed token through the
middleware one hour past its expiry and observes the invalid-token
response.
-/
theorem c2_expired_token_reported_invalid :
    CaughtError.isJsonWebTokenError .tokenExpiredError = true
    ∧ handleAuthError .tokenExpiredError
        = { status := 401, error := "Invalid token",
            message := "The provided token is invalid or malformed" }
    ∧ jwtVerify demoAccessToken demoCfg.secret 7200000
        = .error .tokenExpiredError
    ∧ authenticateToken [demoUserDoc] demoCfg.secret 7200000
          (some demoAccessToken)
        = .reject { status := 401, error := "Invalid token",
                    message := "The provided token is invalid or malformed" } := by
  refine ⟨rfl, rfl, by decide, by decide⟩

/--
C8 (amended). The startup configuration check does not validate the
duration format: the zod schema accepts any string for `JWT_EXPIRES_IN`
(defaulting to `1h` when the variable is absent). A malformed duration
therefore passes boot and instead fails at runtime: whenever
`parseExpiration` rejects the configured duration, `generateAccessToken`
and `getTokenExpiration` — and hence register/login/refresh, which call
them — fail with that error during request handling.
-/
theorem c8_duration_not_validated_at_startup (s : String) (cfg : JwtConfig)
    (now : Nat) (user : ApiUser) (e : String)
    (he : parseExpiration cfg.expiresIn = .error e) :
    envJwtExpiresIn (some s) = .ok s
    ∧ envJwtExpiresIn none = .ok "1h"
    ∧ generateAccessToken cfg now user = .error e
    ∧ getTokenExpiration cfg.expiresIn now = .error e := by
  refine ⟨rfl, rfl, ?_, ?_⟩
  · unfold generateAccessToken
    rw [he]
  · unfold getTokenExpiration
    rw [he]

/-- C8 witness: the amended statement instantiated at the malformed
duration `5x`. -/
theorem c8_duration_not_validated_at_startup_witness :
    envJwtExpiresIn (some "5x") = .ok "5x"
    ∧ envJwtExpiresIn none = .ok "1h"
    ∧ generateAccessToken badDurationCfg 0 demoApiUser
        = .error ("Invalid expiration format: 5x")
    ∧ getTokenExpiration badDurationCfg.expiresIn 0
        = .error ("Invalid expiration format: 5x") :=
  c8_duration_not_validated_at_startup "5x" badDurationCfg 0 demoApiUser
    ("Invalid expiration format: 5x") (by decide)

/-- C8 counterexample: the claim as frozen is false — the malformed
duration `5x` passes the startup validation unchanged, and the runtime
register operation then fails because of it (the generators throw); a
non-numeric value with a valid suffix (`xs`) parses to NaN and makes
`getTokenExpiration` fail as well. -/
theorem c8_counterexample :
    envJwtExpiresIn (some "5x") = .ok "5x"
    ∧ parseExpiration "5x" = .error ("Invalid expiration format: 5x")
    ∧ register [] badDurationCfg 0 "u1" hashPassword
          "a@x.com" "pw" "A B" "1990-01-01" none
        = .error { statusCode := 500, message := "Internal Server Error" }
    ∧ parseExpiration "xs" = .ok .nan
    ∧ getTokenExpiration "xs" 0 = .error "Invalid time value" := by
  refine ⟨rfl, by decide, by decide, by decide, by decide⟩

/--
C10. The at-most-one-entry-per-user-per-exact-recorded-timestamp property
enforced at creation is not preserved by update: from the reachable state
built by two successful creates at distinct instants, updating the second
entry's `recordedAt` to the first one's instant succeeds (no duplicate
check runs in `updateWeightEntry`) and leaves two entries of the same user
with identical recorded timestamps.
-/
theorem c10_update_breaks_recordedAt_uniqueness :
    c10Step1.1 = 201
    ∧ c10Step2.1 = 201
    ∧ c10Step3.1 = 200
    ∧ (c10Step3.2.filter
          (fun e => e.userId == "user-a" && e.recordedAt == 1000)).length = 2 := by
  decide

/--
C3 (amended). For weight entries and medications, read-one/update/delete
look the record up by id and caller id together, so when the record's
owner differs from the caller the operation returns NotFound (404, never
Forbidden) and leaves the store unchanged — and this holds for every
caller role, the admin role included: no admin ownership bypass exists in
these handlers. Shipment update/delete apply no ownership check at all:
they succeed (200) for any caller whenever a record with the requested id
exists, whoever owns it.
-/
theorem c3_ownership_checks
    (wStore : List WeightEntryDoc) (mStore : List MedicationDoc)
    (sStore : List ShipmentDoc) (caller : AuthUser)
    (wid mid sid : String)
    (w r : Option Nat) (n : Option String)
    (mpatch : MedicationPatch) (spatch : ShipmentPatch)
    (hw : ∀ e ∈ wStore, e.id = wid → e.userId ≠ caller.id)
    (hm : ∀ m ∈ mStore, m.id = mid → m.userId ≠ caller.id)
    (hs : ∃ s ∈ sStore, s.id = sid) :
    getWeightEntry wStore (some caller) wid = (404, none)
    ∧ updateWeightEntry wStore (some caller) wid w r n = (404, wStore)
    ∧ deleteWeightEntry wStore (some caller) wid = (404, wStore)
    ∧ getMedication mStore caller mid = (404, none)
    ∧ updateMedication mStore caller mid mpatch = (404, mStore)
    ∧ deleteMedication mStore caller mid = (404, mStore)
    ∧ (updateShipment sStore sid spatch).1 = 200
    ∧ (deleteShipment sStore sid).1 = 200 := by
  have hpw : ∀ e ∈ wStore, ¬ ((e.id == wid && e.userId == caller.id) = true) := by
    intro e he
    simp only [Bool.and_eq_true, beq_iff_eq, not_and]
    exact hw e he
  have hpm : ∀ m ∈ mStore, ¬ ((m.id == mid && m.userId == caller.id) = true) := by
    intro m hmm
    simp only [Bool.and_eq_true, beq_iff_eq, not_and]
    exact hm m hmm
  have hfw : wStore.find? (fun e => e.id == wid && e.userId == caller.id) = none :=
    List.find?_eq_none.mpr hpw
  have haw : wStore.any (fun e => e.id == wid && e.userId == caller.id) = false := by
    rw [List.any_eq_false]
    exact hpw
  have ham : mStore.any (fun m => m.id == mid && m.userId == caller.id) = false := by
    rw [List.any_eq_false]
    exact hpm
  have hfm : mStore.find? (fun m => m.id == mid && m.userId == caller.id) = none :=
    List.find?_eq_none.mpr hpm
  have has : sStore.any (fun s => s.id == sid) = true := by
    rw [List.any_eq_true]
    obtain ⟨s, hsmem, hsid⟩ := hs
    exact ⟨s, hsmem, by simp [hsid]⟩
  refine ⟨?_, ?_, ?_, ?_, ?_, ?_, ?_, ?_⟩
  · simp [getWeightEntry, hfw]
  · simp [updateWeightEntry, haw]
  · simp [deleteWeightEntry, haw]
  · simp [getMedication, hfm]
  · simp [updateMedication, ham]
  · simp [deleteMedication, ham]
  · simp [updateShipment, has]
  · simp [deleteShipment, has]

/-- C3 witness: the amended statement instantiated with an admin caller
against single-record stores owned by the demo patient. -/
theorem c3_ownership_checks_witness :
    getWeightEntry [c3Entry] (some c3Admin) "w-1" = (404, none)
    ∧ updateWeightEntry [c3Entry] (some c3Admin) "w-1" none none none
        = (404, [c3Entry])
    ∧ deleteWeightEntry [c3Entry] (some c3Admin) "w-1" = (404, [c3Entry])
    ∧ getMedication [c3Med] c3Admin "med-1" = (404, none)
    ∧ updateMedication [c3Med] c3Admin "med-1" emptyMedicationPatch
        = (404, [c3Med])
    ∧ deleteMedication [c3Med] c3Admin "med-1" = (404, [c3Med])
    ∧ (updateShipment [c3Ship] "ship-1" emptyShipmentPatch).1 = 200
    ∧ (deleteShipment [c3Ship] "ship-1").1 = 200 :=
  c3_ownership_checks [c3Entry] [c3Med] [c3Ship] c3Admin "w-1" "med-1" "ship-1"
    none none none emptyMedicationPatch emptyShipmentPatch
    (by decide) (by decide) (by decide)

/-- C3 counterexample: the claim as frozen is false — an admin reading
another user's medication gets 404; the claimed admin ownership bypass
does not exist. -/
theorem c3_counterexample :
    c3Admin.role = .admin
    ∧ c3Med.userId ≠ c3Admin.id
    ∧ getMedication [c3Med] c3Admin "med-1" = (404, none) := by
  decide

/--
C4 (amended). Medication create stamps the authenticated caller's id onto
the persisted `userId` regardless of any client-supplied value (the body
spread is overridden by `userId: req.user?.id`). Shipment create, however,
persists the request body verbatim: the persisted owner is exactly the
client-supplied `userId`, so requests differing only in the body's
`userId` persist different owners.
-/
theorem c4_owner_stamping (mStore : List MedicationDoc) (user : AuthUser)
    (newId : String) (body : MedicationBody)
    (sStore : List ShipmentDoc) (sid : String) (sBody : ShipmentBody)
    (uid : String)
    (hu : sBody.userId = some uid) (hitems : sBody.items ≠ []) :
    ((createMedication mStore user newId body).2.getLast?).map
        (fun m => m.userId) = some user.id
    ∧ ((createShipment sStore sid sBody).2.getLast?).map
        (fun s => s.userId) = some uid := by
  constructor
  · simp [createMedication, List.getLast?_concat]
  · have hne : sBody.items.isEmpty = false := by
      cases hi : sBody.items with
      | nil => exact absurd hi hitems
      | cons a l => simp [List.isEmpty]
    simp [createShipment, hu, hne, List.getLast?_concat]

/-- C4 witness: the amended statement instantiated for a medication create
by the admin and a shipment create carrying owner `user-b`. -/
theorem c4_owner_stamping_witness :
    ((createMedication [] c3Admin "med-9"
        { userId := some "user-b", name := "Semaglutide", dosage := "1.0 mg",
          frequency := "Weekly", startDate := 0, endDate := none }).2.getLast?).map
        (fun m => m.userId) = some c3Admin.id
    ∧ ((createShipment [] "ship-9" c4Body2).2.getLast?).map
        (fun s => s.userId) = some "user-b" :=
  c4_owner_stamping [] c3Admin "med-9"
    { userId := some "user-b", name := "Semaglutide", dosage := "1.0 mg",
      frequency := "Weekly", startDate := 0, endDate := none }
    [] "ship-9" c4Body2 "user-b" (by decide) (by decide)

/-- C4 counterexample: the claim as frozen is false — two shipment creates
by the same caller `user-a` whose bodies differ only in the client's
`userId` field persist different owners; the second persists `user-b`,
not the caller. -/
theorem c4_counterexample :
    c4Body2 = { c4Body1 with userId := some "user-b" }
    ∧ (createShipment [] "s1" c4Body1).2.map (fun s => s.userId) = ["user-a"]
    ∧ (createShipment [] "s1" c4Body2).2.map (fun s => s.userId) = ["user-b"] := by
  decide

/--
C6. The weight-entry duplicate guard on creation: a create succeeds (201)
when the caller has no entry at the exact recorded instant; a second
create by the same caller at the identical instant is rejected with
Conflict (409) and leaves the store exactly as after the first create, so
exactly one entry of the caller exists at that instant.
-/
theorem c6_duplicate_recordedAt_conflict (store : List WeightEntryDoc)
    (u : AuthUser) (id1 id2 : String) (w1 w2 : Nat) (t : Nat)
    (n1 n2 : Option String) (now : Nat)
    (hfresh : ∀ e ∈ store, e.userId = u.id → e.recordedAt ≠ t) :
    (createWeightEntry store (some u) id1 w1 (some t) n1 now).1 = 201
    ∧ ((createWeightEntry store (some u) id1 w1 (some t) n1 now).2.filter
        (fun e => e.userId == u.id && e.recordedAt == t)).length = 1
    ∧ createWeightEntry
        (createWeightEntry store (some u) id1 w1 (some t) n1 now).2
        (some u) id2 w2 (some t) n2 now
      = (409, (createWeightEntry store (some u) id1 w1 (some t) n1 now).2) := by
  have hpred : ∀ e ∈ store, ¬ ((e.userId == u.id && e.recordedAt == t) = true) := by
    intro e he
    simp only [Bool.and_eq_true, beq_iff_eq, not_and]
    exact hfresh e he
  have hany : store.any (fun e => e.userId == u.id && e.recordedAt == t) = false := by
    rw [List.any_eq_false]
    exact hpred
  have hfil : store.filter (fun e => e.userId == u.id && e.recordedAt == t) = [] := by
    rw [List.filter_eq_nil_iff]
    exact hpred
  have hfirst : createWeightEntry store (some u) id1 w1 (some t) n1 now
      = (201, store ++ [{ id := id1, userId := u.id, weight := w1,
                          recordedAt := t, notes := n1 }]) := by
    simp [createWeightEntry, hany]
  refine ⟨by rw [hfirst], ?_, ?_⟩
  · rw [hfirst]
    simp [List.filter_append, hfil]
  · rw [hfirst]
    have hany2 : (store ++ [({ id := id1, userId := u.id, weight := w1,
                               recordedAt := t, notes := n1 } : WeightEntryDoc)]).any
        (fun e => e.userId == u.id && e.recordedAt == t) = true := by
      simp [List.any_append]
    simp [createWeightEntry, hany2]

/-- C6 witness: the guard instantiated from the empty store for the demo
caller at instant 1000. -/
theorem c6_duplicate_recordedAt_conflict_witness :
    (createWeightEntry [] (some c10User) "w1" 180 (some 1000) none 0).1 = 201
    ∧ ((createWeightEntry [] (some c10User) "w1" 180 (some 1000) none 0).2.filter
        (fun e => e.userId == c10User.id && e.recordedAt == 1000)).length = 1
    ∧ createWeightEntry
        (createWeightEntry [] (some c10User) "w1" 180 (some 1000) none 0).2
        (some c10User) "w2" 181 (some 1000) none 0
      = (409, (createWeightEntry [] (some c10User) "w1" 180 (some 1000) none 0).2) :=
  c6_duplicate_recordedAt_conflict [] c10User "w1" "w2" 180 181 1000 none none 0
    (by decide)

theorem weightQuery_none (store : List WeightEntryDoc) (uid : String) :
    weightQuery store uid none none = store.filter (fun e => e.userId == uid) := by
  show store.filter (fun e => e.userId == uid && true && true)
      = store.filter (fun e => e.userId == uid)
  simp only [Bool.and_true]

/--
C5 (amended). Weight-entry listing is scoped and paginated correctly:
every item of every page belongs to the caller; the handler-computed total
equals the number of the caller's records; and listing with limit L across
`ceil(N/L)` pages returns exactly the caller's records, each exactly once
(the concatenation of the pages is a permutation of the caller's records).
However, that computed total is not part of the handler's response body,
and shipment listing is not scoped at all: `getAllShipments` returns every
record of the store, whoever the caller is.
-/
theorem c5_scoped_listing_pagination (store : List WeightEntryDoc)
    (u : AuthUser) (limit : Nat) (hL : 0 < limit) (ord : SortOrder)
    (sStore : List ShipmentDoc) :
    (∀ page, ∀ e ∈ (getWeightEntries store (some u) page limit none none ord).2,
        e.userId = u.id)
    ∧ weightEntriesTotal store u.id none none
        = (store.filter (fun e => e.userId == u.id)).length
    ∧ List.Perm
        ((List.range (pagesNeeded (weightEntriesTotal store u.id none none) limit)).flatMap
          (fun i => (getWeightEntries store (some u) (i + 1) limit none none ord).2))
        (store.filter (fun e => e.userId == u.id))
    ∧ getAllShipments sStore = (200, sStore) := by
  have hq := weightQuery_none store u.id
  refine ⟨?_, ?_, ?_, rfl⟩
  · intro page e he
    have h1 : e ∈ sortLe (recordedAtLe ord) (weightQuery store u.id none none) :=
      List.drop_subset _ _ (List.take_subset _ _ he)
    have h2 : e ∈ weightQuery store u.id none none :=
      ((sortLe_perm (recordedAtLe ord) _).mem_iff).mp h1
    rw [hq] at h2
    exact beq_iff_eq.mp (List.mem_filter.mp h2).2
  · rw [weightEntriesTotal, hq]
  · have hcover : pagesConcat
        (sortLe (recordedAtLe ord) (weightQuery store u.id none none)) limit
        (pagesNeeded (weightEntriesTotal store u.id none none) limit)
        = sortLe (recordedAtLe ord) (weightQuery store u.id none none) := by
      apply pagesConcat_covers limit hL
      rw [(sortLe_perm (recordedAtLe ord) (weightQuery store u.id none none)).length_eq]
      rfl
    show List.Perm
        (pagesConcat (sortLe (recordedAtLe ord) (weightQuery store u.id none none))
          limit (pagesNeeded (weightEntriesTotal store u.id none none) limit))
        (store.filter (fun e => e.userId == u.id))
    rw [hcover, ← hq]
    exact sortLe_perm _ _

/-- C5 witness: the amended statement instantiated with limit 1 for the
caller `user-a` and a one-shipment store. -/
theorem c5_scoped_listing_pagination_witness :
    weightEntriesTotal [c3Entry] c10User.id none none
      = ([c3Entry].filter (fun e => e.userId == c10User.id)).length
    ∧ getAllShipments [c5Ship] = (200, [c5Ship]) :=
  ⟨(c5_scoped_listing_pagination [c3Entry] c10User 1 (by decide) .desc [c5Ship]).2.1,
   (c5_scoped_listing_pagination [c3Entry] c10User 1 (by decide) .desc [c5Ship]).2.2.2⟩

/-- C5 counterexample: the claim as frozen is false — with the store
holding only another user's shipment, the authenticated caller `user-a`
listing shipments receives that foreign record, so the returned items are
not the records owned by the caller. -/
theorem c5_counterexample :
    (getAllShipments [c5Ship]).2 = [c5Ship]
    ∧ c5Ship.userId ≠ "user-a" := by
  decide

theorem transformUserForAPI_eraseHash (u : UserDoc) :
    transformUserForAPI (eraseHash u) = transformUserForAPI u := rfl

theorem exceptMap_pair_fst {ε α β : Type} (x : Except ε α) (s : β) :
    (x.map (fun r => (r, s))).map Prod.fst = x := by
  cases x <;> rfl

theorem refreshToken_some_eq (users : List UserDoc) (cfg : JwtConfig)
    (now : Nat) (tok : SignedToken) :
    refreshToken users cfg now (some tok)
      = (match verifyRefreshToken cfg now tok with
         | .error _ =>
             .error { statusCode := 401, message := "Invalid or expired refresh token" }
         | .ok decoded =>
           match users.find? (fun x => x.id == decoded.userId) with
           | none =>
               .error { statusCode := 401, message := "Invalid or expired refresh token" }
           | some user =>
             match issueAuthResponse cfg now (transformUserForAPI user) with
             | .error _ =>
                 .error { statusCode := 401, message := "Invalid or expired refresh token" }
             | .ok r => .ok r) := rfl

/--
C7. No response payload of register, login, refresh, or get-profile
contains the stored password hash: the register response is unchanged
whatever hashing function produced the stored hash, and every successful
login/refresh/profile payload is exactly a function of the hash-erased
stored user (so the hash cannot reach any of these payloads).
-/
theorem c7_password_hash_never_in_responses :
    (∀ (users : List UserDoc) (cfg : JwtConfig) (now : Nat) (newId : String)
        (f g : String → String) (email pw name dob : String) (role : Option Role),
        (register users cfg now newId f email pw name dob role).map Prod.fst
          = (register users cfg now newId g email pw name dob role).map Prod.fst)
    ∧ (∀ (users : List UserDoc) (cfg : JwtConfig) (now : Nat)
        (email pw : String) (r : AuthResponse),
        login users cfg now email pw = .ok r →
        (users.find? (fun u => u.email == email)).map
            (fun u => issueAuthResponse cfg now (transformUserForAPI (eraseHash u)))
          = some (.ok r))
    ∧ (∀ (users : List UserDoc) (cfg : JwtConfig) (now : Nat)
        (tok : SignedToken) (r : AuthResponse) (p : JwtPayload),
        refreshToken users cfg now (some tok) = .ok r →
        verifyRefreshToken cfg now tok = .ok p →
        (users.find? (fun u => u.id == p.userId)).map
            (fun u => issueAuthResponse cfg now (transformUserForAPI (eraseHash u)))
          = some (.ok r))
    ∧ (∀ (users : List UserDoc) (uid : String) (r : ApiUser),
        getProfile users (some uid) = .ok r →
        (users.find? (fun u => u.id == uid)).map
            (fun u => transformUserForAPI (eraseHash u))
          = some r) := by
  refine ⟨?_, ?_, ?_, ?_⟩
  · intro users cfg now newId f g email pw name dob role
    by_cases hdup : users.any (fun u => u.email == email) = true
    · simp [register, hdup]
    · simp only [register, hdup, if_false, Bool.false_eq_true]
      rw [exceptMap_pair_fst, exceptMap_pair_fst]
      rfl
  · intro users cfg now email pw r hr
    unfold login at hr
    cases hfind : users.find? (fun u => u.email == email) with
    | none => simp [hfind] at hr
    | some u =>
        simp only [hfind] at hr
        cases hcp : comparePassword pw u.passwordHash with
        | false => simp [hcp] at hr
        | true =>
            simp only [hcp, Bool.not_true, Bool.false_eq_true, if_false] at hr
            simp [transformUserForAPI_eraseHash, hr]
  · intro users cfg now tok r p hr hp
    rw [refreshToken_some_eq] at hr
    simp only [hp] at hr
    cases hfind : users.find? (fun u => u.id == p.userId) with
    | none => simp [hfind] at hr
    | some u =>
        simp only [hfind] at hr
        cases hissue : issueAuthResponse cfg now (transformUserForAPI u) with
        | error e => simp [hissue] at hr
        | ok resp =>
            simp only [hissue, Except.ok.injEq] at hr
            simp [transformUserForAPI_eraseHash, hissue, hr]
  · intro users uid r hr
    unfold getProfile at hr
    cases hfind : users.find? (fun u => u.id == uid) with
    | none => simp [hfind] at hr
    | some u =>
        simp only [hfind, Except.ok.injEq] at hr
        simp [transformUserForAPI_eraseHash, hr]

/-- C7 witness: the login characterization instantiated on a concrete
successful demo login. -/
theorem c7_password_hash_never_in_responses_witness :
    ([demoUserDoc].find? (fun u => u.email == "patient@example.com")).map
        (fun u => issueAuthResponse demoCfg 0 (transformUserForAPI (eraseHash u)))
      = some (.ok demoLoginResponse) :=
  c7_password_hash_never_in_responses.2.1 [demoUserDoc] demoCfg 0
    "patient@example.com" "demo123" demoLoginResponse (by decide)

/--
C9. The token service does not distinguish access from refresh tokens:
both generators sign the same claim shape `{userId, email}` with the same
secret (differing only in the expiry window), `verifyRefreshToken` is
plain `jwt.verify` under that shared secret and therefore accepts an
unexpired access token, and submitting such an access token to the refresh
operation succeeds for an existing identity, returning a fresh token pair.
-/
theorem c9_refresh_accepts_access_token
    (users : List UserDoc) (cfg : JwtConfig) (now now2 : Nat) (u : UserDoc)
    (d rd : Nat)
    (hd : parseExpiration cfg.expiresIn = .ok (.num d))
    (hrd : parseExpiration cfg.refreshExpiresIn = .ok (.num rd))
    (hfind : users.find? (fun x => x.id == u.id) = some u)
    (hnow : now2 < now + d) :
    generateAccessToken cfg now (transformUserForAPI u)
      = .ok (jwtSign (tokenClaims (transformUserForAPI u) now (now + d)) cfg.secret)
    ∧ generateRefreshToken cfg now (transformUserForAPI u)
      = .ok (jwtSign (tokenClaims (transformUserForAPI u) now (now + rd)) cfg.secret)
    ∧ verifyRefreshToken cfg now2
        (jwtSign (tokenClaims (transformUserForAPI u) now (now + d)) cfg.secret)
      = .ok (tokenClaims (transformUserForAPI u) now (now + d))
    ∧ refreshToken users cfg now2
        (some (jwtSign (tokenClaims (transformUserForAPI u) now (now + d)) cfg.secret))
      = .ok { user := transformUserForAPI u,
              token := jwtSign (tokenClaims (transformUserForAPI u) now2 (now2 + d)) cfg.secret,
              refreshToken :=
                jwtSign (tokenClaims (transformUserForAPI u) now2 (now2 + rd)) cfg.secret,
              expiresIn := now2 + d } := by
  have hacc : generateAccessToken cfg now (transformUserForAPI u)
      = .ok (jwtSign (tokenClaims (transformUserForAPI u) now (now + d)) cfg.secret) := by
    unfold generateAccessToken
    rw [hd]
    rfl
  have href : generateRefreshToken cfg now (transformUserForAPI u)
      = .ok (jwtSign (tokenClaims (transformUserForAPI u) now (now + rd)) cfg.secret) := by
    unfold generateRefreshToken
    rw [hrd]
    rfl
  have hver : verifyRefreshToken cfg now2
      (jwtSign (tokenClaims (transformUserForAPI u) now (now + d)) cfg.secret)
      = .ok (tokenClaims (transformUserForAPI u) now (now + d)) := by
    unfold verifyRefreshToken
    rw [jwtVerify_sign]
    exact if_neg (by simp only [tokenClaims]; omega)
  have hacc2 : generateAccessToken cfg now2 (transformUserForAPI u)
      = .ok (jwtSign (tokenClaims (transformUserForAPI u) now2 (now2 + d)) cfg.secret) := by
    unfold generateAccessToken
    rw [hd]
    rfl
  have href2 : generateRefreshToken cfg now2 (transformUserForAPI u)
      = .ok (jwtSign (tokenClaims (transformUserForAPI u) now2 (now2 + rd)) cfg.secret) := by
    unfold generateRefreshToken
    rw [hrd]
    rfl
  have hexp2 : getTokenExpiration cfg.expiresIn now2 = .ok (now2 + d) := by
    unfold getTokenExpiration
    rw [hd]
  have hissue : issueAuthResponse cfg now2 (transformUserForAPI u)
      = .ok { user := transformUserForAPI u,
              token := jwtSign (tokenClaims (transformUserForAPI u) now2 (now2 + d)) cfg.secret,
              refreshToken :=
                jwtSign (tokenClaims (transformUserForAPI u) now2 (now2 + rd)) cfg.secret,
              expiresIn := now2 + d } := by
    unfold issueAuthResponse
    simp only [hacc2, href2, hexp2]
  refine ⟨hacc, href, hver, ?_⟩
  have hfind2 : users.find?
      (fun x => x.id == (tokenClaims (transformUserForAPI u) now (now + d)).userId)
      = some u := hfind
  rw [refreshToken_some_eq]
  simp only [hver, hfind2, hissue]

/-- C9 witness: an access token issued for the demo user at time 0 passes
`verifyRefreshToken` at time 1000, and the refresh operation accepts it. -/
theorem c9_refresh_accepts_access_token_witness :
    verifyRefreshToken demoCfg 1000
        (jwtSign (tokenClaims (transformUserForAPI demoUserDoc) 0 (0 + 3600000))
          demoCfg.secret)
      = .ok (tokenClaims (transformUserForAPI demoUserDoc) 0 (0 + 3600000)) :=
  (c9_refresh_accepts_access_token [demoUserDoc] demoCfg 0 1000 demoUserDoc
    3600000 604800000 (by decide) (by decide) (by decide) (by decide)).2.2.1

end Acme
